import Mathlib

/-!
Shallow embedding of `src/main.py` (triage + RAG over PDF policies).

External collaborators (the Gemini chat model, the embedding API, the FAISS
retriever and the PDF loader) are modelled as function parameters; the control
flow, the branching and the event sequence (provider calls and sleeps) are
translated from the script.
-/

set_option autoImplicit false

namespace Rag

/-- A loaded document or chunk: extracted text plus source metadata
(originating file, page), as produced by the PDF loader and the splitter. -/
structure Documento where
  content : String
  source : String
  page : Nat
deriving DecidableEq

/-- The fixed sentinel answer of the script ("I do not know"). -/
def NAO_SEI : String := "Não sei"

/-- Python `s.strip()`: drop leading and trailing whitespace. Implemented
structurally on the character list so it evaluates by kernel reduction. -/
def pyStrip (s : String) : String :=
  ⟨((s.toList.dropWhile Char.isWhitespace).reverse.dropWhile Char.isWhitespace).reverse⟩

/-- Python `txt.rstrip(".!?")`: drop trailing characters belonging to the
set {., !, ?}. -/
def rstripPontuacao (txt : String) : String :=
  ⟨(txt.toList.reverse.dropWhile (fun c => c == '.' || c == '!' || c == '?')).reverse⟩

/-- The dictionary returned by `perguntar_politica_rag`. -/
structure RagResult where
  answer : String
  citacoes : List Documento
  contexto_encontrado : Bool
deriving DecidableEq

/-- Observable steps of a run: provider calls and the fixed sleeps.
`retrieveCall` is `retriever.invoke` (it embeds the question, hence a
provider call); `chainCall` is `document_chain.invoke`. -/
inductive Event where
  | triageCall (msg : String)
  | embedChunkCall (i : Nat) (chunk : Documento) (sucesso : Bool)
  | retrieveCall (q : String)
  | chainCall (q : String)
  | sleep (secs : Nat)
deriving DecidableEq

/-- Embedding of `perguntar_politica_rag` (src/main.py lines 130-147).
`retriever` stands for `retriever.invoke`, `document_chain` for
`document_chain.invoke` (an `Option` result models Python `answer or ""`).
Besides the returned dictionary it yields the list of provider calls made. -/
def perguntar_politica_rag (pergunta : String) (retriever : String → List Documento)
    (document_chain : String → List Documento → Option String) :
    RagResult × List Event :=
  let docs_relacionados := retriever pergunta
  if docs_relacionados = [] then
    (⟨NAO_SEI, [], false⟩, [Event.retrieveCall pergunta])
  else
    let answer := document_chain pergunta docs_relacionados
    let txt := pyStrip (answer.getD "")
    if rstripPontuacao txt = NAO_SEI then
      (⟨NAO_SEI, [], true⟩, [Event.retrieveCall pergunta, Event.chainCall pergunta])
    else
      (⟨txt, docs_relacionados, true⟩,
        [Event.retrieveCall pergunta, Event.chainCall pergunta])

/-- Modelled from the spec: the third-party `RecursiveCharacterTextSplitter`
(chunk_size=300, chunk_overlap=30) is not part of this repository; the spec
describes it as splitting text "into chunks of a fixed target size with fixed
overlap". Modelled as a deterministic sliding window of 300 characters
advancing by 270 (so consecutive chunks overlap by 30). Fuel-structural so it
reduces definitionally; fuel `cs.length` always suffices. -/
def splitCharsAux : Nat → List Char → List (List Char)
  | 0, _ => []
  | Nat.succ fuel, cs =>
    if cs = [] then []
    else if cs.length ≤ 300 then [cs]
    else cs.take 300 :: splitCharsAux fuel (cs.drop 270)

/-- Embedding of `splitter.split_documents(docs)` (src/main.py line 86):
each document's text is split into overlapping chunks carrying the
document's metadata. -/
def split_documents (docs : List Documento) : List Documento :=
  docs.flatMap (fun d =>
    (splitCharsAux d.content.toList.length d.content.toList).map
      (fun cs => ⟨⟨cs⟩, d.source, d.page⟩))

/-- The vectorstore state of the embedding loop (src/main.py lines 92-118):
`none` until a first successful embedding creates it
(`FAISS.from_texts`); afterwards `add_texts` appends. `emb i` tells whether
the embedding call for chunk `i` succeeds; on failure the exception is
caught and the chunk is skipped. -/
def buildIndex (emb : Nat → Bool) :
    Nat → Option (List Documento) → List Documento → Option (List Documento)
  | _, vectorstore, [] => vectorstore
  | i, vectorstore, chunk :: rest =>
    buildIndex emb (i + 1)
      (if emb i then some (vectorstore.getD [] ++ [chunk]) else vectorstore) rest

/-- The event log of the embedding loop: one embedding attempt per chunk,
each followed by `time.sleep(1)` (src/main.py line 118) whether or not the
attempt succeeded. -/
def buildEvents (emb : Nat → Bool) : Nat → List Documento → List Event
  | _, [] => []
  | i, chunk :: rest =>
    Event.embedChunkCall i chunk (emb i) :: Event.sleep 1 :: buildEvents emb (i + 1) rest

/-- Embedding of `setup_rag_chain` (src/main.py lines 64-127). Takes the
loaded documents (zero loadable PDFs yields `[]`) and the embedding outcome
oracle. Returns `Except`: `Except.error` models the uncaught
`AttributeError` raised at line 122 when `vectorstore` is still `None`, and
`Except.ok (retriever?, chainPresent)` models the returned pair — `(none,
false)` is Python `return None, None`. The second component is the event
log of the build phase. -/
def setup_rag_chain (docs : List Documento) (emb : Nat → Bool) :
    Except String (Option (List Documento) × Bool) × List Event :=
  if docs = [] then (Except.ok (none, false), [])
  else
    let chunks := split_documents docs
    let evs := buildEvents emb 0 chunks
    match buildIndex emb 0 none chunks with
    | none => (Except.error "AttributeError: NoneType object has no attribute as_retriever", evs)
    | some idx => (Except.ok (some idx, true), evs)

/-- Event log of the triage loop of `main` (src/main.py lines 181-193):
one model call per test message, each followed by `time.sleep(6)`,
regardless of success or failure of the call. -/
def triageTrace (testes : List String) : List Event :=
  testes.flatMap (fun m => [Event.triageCall m, Event.sleep 6])

/-- Event log of the RAG test loop of `main` (src/main.py lines 199-213):
skipped entirely unless both `retriever` and `document_chain` are present;
otherwise one `perguntar_politica_rag` per test message, each followed by
`time.sleep(6)`. -/
def ragTrace (pair : Option (List Documento) × Bool) (testes : List String)
    (retriever : String → List Documento)
    (document_chain : String → List Documento → Option String) : List Event :=
  match pair with
  | (some _, true) =>
    testes.flatMap (fun q => (perguntar_politica_rag q retriever document_chain).2 ++ [Event.sleep 6])
  | _ => []

/-- Event log of a whole run of `main` (src/main.py lines 151-215): triage
phase, then index construction, then (when the setup returned a usable
pair) the RAG phase; if the setup raised, the run dies there. -/
def mainTrace (testes : List String) (docs : List Documento) (emb : Nat → Bool)
    (retriever : String → List Documento)
    (document_chain : String → List Documento → Option String) : List Event :=
  triageTrace testes ++
    (setup_rag_chain docs emb).2 ++
    (match (setup_rag_chain docs emb).1 with
     | Except.ok pair => ragTrace pair testes retriever document_chain
     | Except.error _ => [])

/-- Documents of the index read back as a plain list: a missing vectorstore
holds no entries. -/
def indexDocs (vectorstore : Option (List Documento)) : List Documento :=
  vectorstore.getD []

/-- The chunks whose embedding call succeeded, in input order, numbering
them from `i` — the reference list for the contents of the index. -/
def successfulChunks (emb : Nat → Bool) : Nat → List Documento → List Documento
  | _, [] => []
  | i, chunk :: rest =>
    (if emb i then [chunk] else []) ++ successfulChunks emb (i + 1) rest

/-- The chunks for which an embedding attempt appears in an event log, in
log order. -/
def attemptedChunks (evs : List Event) : List Documento :=
  evs.filterMap (fun e =>
    match e with
    | Event.embedChunkCall _ chunk _ => some chunk
    | _ => none)

/-- Every event except a sleep is an outbound provider call. -/
def isProviderCall : Event → Bool
  | Event.sleep _ => false
  | _ => true

/-- Whether an event log contains two provider calls in immediate
succession, with no event between them. -/
def hasAdjacentCalls : List Event → Bool
  | a :: b :: rest => (isProviderCall a && isProviderCall b) || hasAdjacentCalls (b :: rest)
  | _ => false

/-- Events after which any successor is acceptable: a sleep (the pause
itself), and `retriever.invoke` — the script inserts no pause between it
and the `document_chain.invoke` that follows it. -/
def permissive : Event → Bool
  | Event.sleep _ => true
  | Event.retrieveCall _ => true
  | _ => false

/-- The pause discipline between one event and the next: a triage call is
followed by a 6 second sleep, a chunk-embedding attempt by a 1 second
sleep, an answer-model call by a 6 second sleep; sleeps and retrieval
calls constrain nothing. -/
def followedByPause : Event → Event → Bool
  | Event.sleep _, _ => true
  | Event.retrieveCall _, _ => true
  | Event.triageCall _, Event.sleep n => n == 6
  | Event.embedChunkCall _ _ _, Event.sleep n => n == 1
  | Event.chainCall _, Event.sleep n => n == 6
  | _, _ => false

/-- An event log obeys the pause discipline when every adjacent pair
does. -/
def pausesOk : List Event → Bool
  | a :: b :: rest => followedByPause a b && pausesOk (b :: rest)
  | _ => true

/-- Whether an event log ends in an event after which any successor is
acceptable (or is empty) — the condition under which another log may be
appended without breaking the pause discipline. -/
def endsPermissive : List Event → Bool
  | [] => true
  | [e] => permissive e
  | _ :: e :: rest => endsPermissive (e :: rest)

/-- Whether an event log records an invocation of the document chain. -/
def invokesChain (evs : List Event) : Bool :=
  evs.any (fun e =>
    match e with
    | Event.chainCall _ => true
    | _ => false)

/-- Whether an event log records any retrieval, chunk-embedding or
answer-model call. -/
def issuesQueryCalls (evs : List Event) : Bool :=
  evs.any (fun e =>
    match e with
    | Event.retrieveCall _ => true
    | Event.chainCall _ => true
    | Event.embedChunkCall _ _ _ => true
    | _ => false)

/-- A concrete policy document used to instantiate the theorems below. -/
def docExemplo : Documento :=
  ⟨"Politica de reembolso: a internet do home office pode ser reembolsada.",
    "politicas.pdf", 0⟩

/-- C1: when the retriever returns no chunks, `perguntar_politica_rag`
returns exactly the sentinel with an empty citations list and a false
context flag, and the document chain is never invoked. -/
theorem claim1_retrieval_vazia (pergunta : String)
    (retriever : String → List Documento)
    (document_chain : String → List Documento → Option String)
    (h : retriever pergunta = []) :
    (perguntar_politica_rag pergunta retriever document_chain).1
        = ⟨NAO_SEI, [], false⟩
      ∧ (perguntar_politica_rag pergunta retriever document_chain).2
        = [Event.retrieveCall pergunta]
      ∧ invokesChain (perguntar_politica_rag pergunta retriever document_chain).2
        = false := by
  refine ⟨?_, ?_, ?_⟩ <;> simp [perguntar_politica_rag, h, invokesChain]

/-- C1 witness: a retriever that finds nothing, instantiated concretely. -/
theorem claim1_retrieval_vazia_witness :
    (fun (_ : String) => ([] : List Documento)) "Quantas capivaras tem no rio?" = []
      ∧ ((perguntar_politica_rag "Quantas capivaras tem no rio?"
            (fun _ => []) (fun _ _ => some "resposta")).1
          = ⟨NAO_SEI, [], false⟩
        ∧ (perguntar_politica_rag "Quantas capivaras tem no rio?"
            (fun _ => []) (fun _ _ => some "resposta")).2
          = [Event.retrieveCall "Quantas capivaras tem no rio?"]
        ∧ invokesChain (perguntar_politica_rag "Quantas capivaras tem no rio?"
            (fun _ => []) (fun _ _ => some "resposta")).2
          = false) :=
  ⟨rfl, claim1_retrieval_vazia "Quantas capivaras tem no rio?"
    (fun _ => []) (fun _ _ => some "resposta") rfl⟩

/-- C2: when chunks were retrieved and the model's reply, stripped of
surrounding whitespace and then of trailing '.', '!' and '?', equals the
sentinel phrase, the canonical sentinel is returned and the context flag
is true. -/
theorem claim2_sentinela_normalizada (pergunta : String)
    (retriever : String → List Documento)
    (document_chain : String → List Documento → Option String)
    (hne : retriever pergunta ≠ [])
    (hsent : rstripPontuacao
        (pyStrip ((document_chain pergunta (retriever pergunta)).getD ""))
      = NAO_SEI) :
    (perguntar_politica_rag pergunta retriever document_chain).1.answer = NAO_SEI
      ∧ (perguntar_politica_rag pergunta retriever document_chain).1.contexto_encontrado
        = true := by
  constructor <;> simp [perguntar_politica_rag, hne, hsent]

/-- C2 witness: the model declines with "Não sei." (trailing period), and
the canonical sentinel comes back. -/
theorem claim2_sentinela_normalizada_witness :
    (fun (_ : String) => [docExemplo]) "Posso reembolsar a internet?" ≠ []
      ∧ rstripPontuacao (pyStrip (((fun (_ : String) (_ : List Documento) =>
            some " Não sei. ") "Posso reembolsar a internet?"
            ((fun (_ : String) => [docExemplo]) "Posso reembolsar a internet?")).getD ""))
        = NAO_SEI
      ∧ ((perguntar_politica_rag "Posso reembolsar a internet?"
            (fun _ => [docExemplo]) (fun _ _ => some " Não sei. ")).1.answer = NAO_SEI
        ∧ (perguntar_politica_rag "Posso reembolsar a internet?"
            (fun _ => [docExemplo])
            (fun _ _ => some " Não sei. ")).1.contexto_encontrado = true) :=
  ⟨by decide, by decide,
    claim2_sentinela_normalizada "Posso reembolsar a internet?"
      (fun _ => [docExemplo]) (fun _ _ => some " Não sei. ") (by decide) (by decide)⟩

/-- C5: when chunks were retrieved and the stripped reply does not
normalize to the sentinel, the stripped reply is returned together with
the full retrieved list as citations and a true context flag. -/
theorem claim5_resposta_com_citacoes (pergunta : String)
    (retriever : String → List Documento)
    (document_chain : String → List Documento → Option String)
    (hne : retriever pergunta ≠ [])
    (hnot : rstripPontuacao
        (pyStrip ((document_chain pergunta (retriever pergunta)).getD ""))
      ≠ NAO_SEI) :
    (perguntar_politica_rag pergunta retriever document_chain).1
      = ⟨pyStrip ((document_chain pergunta (retriever pergunta)).getD ""),
          retriever pergunta, true⟩ := by
  simp [perguntar_politica_rag, hne, hnot]

/-- C5 witness: a substantive model reply is passed through stripped, with
the retrieved chunks cited. -/
theorem claim5_resposta_com_citacoes_witness :
    (fun (_ : String) => [docExemplo]) "Posso reembolsar a internet?" ≠ []
      ∧ rstripPontuacao (pyStrip (((fun (_ : String) (_ : List Documento) =>
            some " Sim, pode ser reembolsada. ") "Posso reembolsar a internet?"
            ((fun (_ : String) => [docExemplo]) "Posso reembolsar a internet?")).getD ""))
        ≠ NAO_SEI
      ∧ (perguntar_politica_rag "Posso reembolsar a internet?"
            (fun _ => [docExemplo]) (fun _ _ => some " Sim, pode ser reembolsada. ")).1
        = ⟨"Sim, pode ser reembolsada.", [docExemplo], true⟩ :=
  ⟨by decide, by decide, by
    have h := claim5_resposta_com_citacoes "Posso reembolsar a internet?"
      (fun _ => [docExemplo]) (fun _ _ => some " Sim, pode ser reembolsada. ")
      (by decide) (by decide)
    simpa using h⟩

/-- C8: when chunks were retrieved and the model's reply is `None` or
whitespace-only, the empty string — not the sentinel — is returned, with
the retrieved chunks as citations and a true context flag. -/
theorem claim8_resposta_vazia (pergunta : String)
    (retriever : String → List Documento)
    (document_chain : String → List Documento → Option String)
    (hne : retriever pergunta ≠ [])
    (hnull : ((document_chain pergunta (retriever pergunta)).getD "").toList.all
        Char.isWhitespace = true) :
    (perguntar_politica_rag pergunta retriever document_chain).1
      = ⟨"", retriever pergunta, true⟩ := by
  have hstrip : pyStrip ((document_chain pergunta (retriever pergunta)).getD "") = "" := by
    have hd : (((document_chain pergunta (retriever pergunta)).getD "").toList.dropWhile
        Char.isWhitespace) = [] := by
      rw [List.dropWhile_eq_nil_iff]
      intro x hx
      exact List.all_eq_true.mp hnull x hx
    unfold pyStrip
    rw [hd]
    rfl
  have hns : rstripPontuacao "" ≠ NAO_SEI := by decide
  simp [perguntar_politica_rag, hne, hstrip, hns]

/-- C8 witness: a `None` reply over a nonempty retrieval yields the empty
answer with citations. -/
theorem claim8_resposta_vazia_witness :
    (fun (_ : String) => [docExemplo]) "Posso reembolsar a internet?" ≠ []
      ∧ (((fun (_ : String) (_ : List Documento) => (none : Option String))
            "Posso reembolsar a internet?"
            ((fun (_ : String) => [docExemplo]) "Posso reembolsar a internet?")).getD
          "").toList.all Char.isWhitespace = true
      ∧ (perguntar_politica_rag "Posso reembolsar a internet?"
            (fun _ => [docExemplo]) (fun _ _ => none)).1
        = ⟨"", [docExemplo], true⟩ :=
  ⟨by decide, by decide,
    claim8_resposta_vazia "Posso reembolsar a internet?"
      (fun _ => [docExemplo]) (fun _ _ => none) (by decide) (by decide)⟩

/-- C9: when the model's reply normalizes to the sentinel although chunks
were retrieved, the returned citations list is empty and the context flag
is still true — the retrieved chunks are not reported. -/
theorem claim9_citacoes_descartadas (pergunta : String)
    (retriever : String → List Documento)
    (document_chain : String → List Documento → Option String)
    (hne : retriever pergunta ≠ [])
    (hsent : rstripPontuacao
        (pyStrip ((document_chain pergunta (retriever pergunta)).getD ""))
      = NAO_SEI) :
    (perguntar_politica_rag pergunta retriever document_chain).1.citacoes = []
      ∧ (perguntar_politica_rag pergunta retriever document_chain).1.contexto_encontrado
        = true := by
  constructor <;> simp [perguntar_politica_rag, hne, hsent]

/-- C9 witness: the model declines with "Não sei!" over a nonempty
retrieval and no citation is reported. -/
theorem claim9_citacoes_descartadas_witness :
    (fun (_ : String) => [docExemplo]) "Posso reembolsar cursos?" ≠ []
      ∧ rstripPontuacao (pyStrip (((fun (_ : String) (_ : List Documento) =>
            some "Não sei!") "Posso reembolsar cursos?"
            ((fun (_ : String) => [docExemplo]) "Posso reembolsar cursos?")).getD ""))
        = NAO_SEI
      ∧ ((perguntar_politica_rag "Posso reembolsar cursos?"
            (fun _ => [docExemplo]) (fun _ _ => some "Não sei!")).1.citacoes = []
        ∧ (perguntar_politica_rag "Posso reembolsar cursos?"
            (fun _ => [docExemplo])
            (fun _ _ => some "Não sei!")).1.contexto_encontrado = true) :=
  ⟨by decide, by decide,
    claim9_citacoes_descartadas "Posso reembolsar cursos?"
      (fun _ => [docExemplo]) (fun _ _ => some "Não sei!") (by decide) (by decide)⟩

/-- C3: when documents were loaded but every per-chunk embedding call
fails, `setup_rag_chain` does not return a disabled index — the
`vectorstore` is still `None` after the loop and the call
`vectorstore.as_retriever(...)` raises, modelled here as the error
result. This contradicts the graceful-degradation contract of the spec
and the docstring of the function. -/
theorem claim3_sem_embeddings_lanca_erro :
    (setup_rag_chain [docExemplo] (fun _ => false)).1
      = Except.error "AttributeError: NoneType object has no attribute as_retriever" := by
  rfl

/-- The build-phase event log of `setup_rag_chain`, in closed form: empty
when no document was loaded, otherwise the log of the embedding loop over
the split chunks. -/
theorem setup_rag_chain_snd (docs : List Documento) (emb : Nat → Bool) :
    (setup_rag_chain docs emb).2
      = if docs = [] then [] else buildEvents emb 0 (split_documents docs) := by
  by_cases h : docs = []
  · simp [setup_rag_chain, h]
  · simp only [setup_rag_chain, if_neg h]
    cases buildIndex emb 0 none (split_documents docs) <;> rfl

/-- Every event of the triage loop is a model call or the 6 second sleep
after it. -/
theorem mem_triageTrace (testes : List String) :
    ∀ e ∈ triageTrace testes, (∃ m, e = Event.triageCall m) ∨ e = Event.sleep 6 := by
  induction testes with
  | nil => intro e he; simp [triageTrace] at he
  | cons m rest ih =>
    intro e he
    simp only [triageTrace, List.flatMap_cons, List.cons_append, List.nil_append,
      List.mem_cons] at he
    rcases he with rfl | rfl | he
    · exact Or.inl ⟨m, rfl⟩
    · exact Or.inr rfl
    · exact ih e he

/-- The triage loop issues no retrieval, embedding or answer-model call. -/
theorem issuesQueryCalls_triageTrace (testes : List String) :
    issuesQueryCalls (triageTrace testes) = false := by
  rw [issuesQueryCalls, List.any_eq_false]
  intro e he
  rcases mem_triageTrace testes e he with ⟨m, rfl⟩ | rfl <;> simp

/-- C4: with zero loadable PDFs, `setup_rag_chain` returns the disabled
pair `(None, None)`, `main` skips the whole RAG phase, and the run's
event log is exactly the triage phase — no retrieval, chunk-embedding or
answer-model call is ever issued. -/
theorem claim4_sem_pdfs_curto_circuito (emb : Nat → Bool) (testes : List String)
    (retriever : String → List Documento)
    (document_chain : String → List Documento → Option String) :
    (setup_rag_chain [] emb).1 = Except.ok (none, false)
      ∧ ragTrace (none, false) testes retriever document_chain = []
      ∧ mainTrace testes [] emb retriever document_chain = triageTrace testes
      ∧ issuesQueryCalls (mainTrace testes [] emb retriever document_chain) = false := by
  have hm : mainTrace testes [] emb retriever document_chain = triageTrace testes := by
    simp [mainTrace, setup_rag_chain, ragTrace]
  exact ⟨rfl, rfl, hm, by rw [hm]; exact issuesQueryCalls_triageTrace testes⟩

/-- The embedding loop attempts every chunk, in input order, whatever the
outcomes of the individual calls. -/
theorem attemptedChunks_buildEvents (emb : Nat → Bool) :
    ∀ (chunks : List Documento) (i : Nat),
      attemptedChunks (buildEvents emb i chunks) = chunks := by
  intro chunks
  induction chunks with
  | nil => intro i; rfl
  | cons c rest ih =>
    intro i
    simp [buildEvents, attemptedChunks, List.filterMap_cons] at ih ⊢
    exact ih (i + 1)

/-- C7: index construction attempts the same chunk sequence on every run
over the same documents — the chunk boundaries are a pure function of the
document input under the fixed chunk_size=300 / chunk_overlap=30
parameters, independent of the embedding outcomes, which are the only
run-varying part of the build. -/
theorem claim7_divisao_deterministica (docs : List Documento) (emb1 emb2 : Nat → Bool) :
    attemptedChunks (setup_rag_chain docs emb1).2
      = attemptedChunks (setup_rag_chain docs emb2).2 := by
  rw [setup_rag_chain_snd, setup_rag_chain_snd]
  by_cases h : docs = []
  · simp [h]
  · simp [h, attemptedChunks_buildEvents]

/-- The embedding loop in closed form: the final index holds the initial
contents followed by exactly the chunks whose embedding call succeeded,
in input order. -/
theorem buildIndex_spec (emb : Nat → Bool) (chunks : List Documento) :
    ∀ (i : Nat) (vs : Option (List Documento)),
      indexDocs (buildIndex emb i vs chunks)
        = indexDocs vs ++ successfulChunks emb i chunks := by
  induction chunks with
  | nil => intro i vs; simp [buildIndex, successfulChunks]
  | cons c rest ih =>
    intro i vs
    simp only [buildIndex, successfulChunks]
    rw [ih]
    by_cases h : emb i <;> simp [h, indexDocs]

/-- One more processed chunk extends the successful-chunk list on the
right, never disturbing the part already accumulated. -/
theorem successfulChunks_take (emb : Nat → Bool) (l : List Documento) :
    ∀ (i n : Nat), ∃ t,
      successfulChunks emb i (l.take (n + 1))
        = successfulChunks emb i (l.take n) ++ t := by
  induction l with
  | nil => intro i n; exact ⟨[], by simp [successfulChunks]⟩
  | cons c rest ih =>
    intro i n
    cases n with
    | zero =>
      refine ⟨if emb i then [c] else [], ?_⟩
      simp [successfulChunks]
    | succ m =>
      obtain ⟨t, ht⟩ := ih (i + 1) m
      refine ⟨t, ?_⟩
      simp only [List.take_succ_cons, successfulChunks, ht, List.append_assoc]

/-- C10: a failed per-chunk embedding call only omits that chunk — the
final index holds exactly the chunks whose embedding succeeded, in input
order, and processing one further chunk only ever appends to the index
built so far. -/
theorem claim10_indice_append_only (chunks : List Documento) (emb : Nat → Bool) :
    indexDocs (buildIndex emb 0 none chunks) = successfulChunks emb 0 chunks
      ∧ ∀ n : Nat, ∃ t,
        indexDocs (buildIndex emb 0 none (chunks.take (n + 1)))
          = indexDocs (buildIndex emb 0 none (chunks.take n)) ++ t := by
  constructor
  · simpa [indexDocs] using buildIndex_spec emb chunks 0 none
  · intro n
    obtain ⟨t, ht⟩ := successfulChunks_take emb chunks 0 n
    refine ⟨t, ?_⟩
    rw [buildIndex_spec, buildIndex_spec]
    simpa [indexDocs] using ht

/-- A sleep or a retrieval call may be followed by anything. -/
theorem followedByPause_perm (e f : Event) (h : permissive e = true) :
    followedByPause e f = true := by
  cases e with
  | sleep n => rfl
  | retrieveCall q => rfl
  | triageCall m => simp [permissive] at h
  | embedChunkCall i c s => simp [permissive] at h
  | chainCall q => simp [permissive] at h

/-- Prepending an event that tolerates any successor preserves the pause
discipline. -/
theorem pausesOk_cons (a : Event) (l : List Event)
    (ha : ∀ f, followedByPause a f = true) (hl : pausesOk l = true) :
    pausesOk (a :: l) = true := by
  cases l with
  | nil => rfl
  | cons b r =>
    rw [show pausesOk (a :: b :: r) = (followedByPause a b && pausesOk (b :: r)) from rfl,
      ha b, hl]
    rfl

/-- Two pause-disciplined logs concatenate into one when the first ends
permissively. -/
theorem pausesOk_append (xs : List Event) : ∀ ys, pausesOk xs = true →
    pausesOk ys = true → endsPermissive xs = true → pausesOk (xs ++ ys) = true := by
  induction xs with
  | nil => intro ys _ hy _; simpa using hy
  | cons a xs ih =>
    intro ys hx hy he
    cases xs with
    | nil =>
      cases ys with
      | nil => simpa using hx
      | cons b ys' =>
        rw [show ([a] ++ b :: ys' : List Event) = a :: b :: ys' from rfl,
          show pausesOk (a :: b :: ys') = (followedByPause a b && pausesOk (b :: ys')) from rfl,
          followedByPause_perm a b he, hy]
        rfl
    | cons b xs' =>
      have hx' := hx
      rw [show pausesOk (a :: b :: xs') = (followedByPause a b && pausesOk (b :: xs')) from rfl,
        Bool.and_eq_true] at hx'
      have h3 := ih ys hx'.2 hy he
      rw [show ((a :: b :: xs') ++ ys : List Event) = a :: ((b :: xs') ++ ys) from rfl,
        show pausesOk (a :: ((b :: xs') ++ ys))
          = (followedByPause a b && pausesOk ((b :: xs') ++ ys)) from rfl,
        hx'.1, h3]
      rfl

/-- Ending permissively is preserved by concatenation of logs that both
end permissively. -/
theorem endsPermissive_append (xs : List Event) : ∀ ys, endsPermissive xs = true →
    endsPermissive ys = true → endsPermissive (xs ++ ys) = true := by
  induction xs with
  | nil => intro ys _ hy; simpa using hy
  | cons a xs ih =>
    intro ys hx hy
    cases xs with
    | nil =>
      cases ys with
      | nil => simpa using hx
      | cons b ys' => exact hy
    | cons b xs' => exact ih ys hx hy

/-- A log closed by a sleep ends permissively, whatever precedes it. -/
theorem endsPermissive_concat_sleep (l : List Event) (n : Nat) :
    endsPermissive (l ++ [Event.sleep n]) = true := by
  induction l with
  | nil => rfl
  | cons a l ih =>
    cases l with
    | nil => rfl
    | cons b r => exact ih

/-- The triage phase obeys the pause discipline and ends in its final
sleep. -/
theorem pausesOk_triageTrace (testes : List String) :
    pausesOk (triageTrace testes) = true ∧ endsPermissive (triageTrace testes) = true := by
  induction testes with
  | nil => exact ⟨rfl, rfl⟩
  | cons m rest ih =>
    have h2 : triageTrace (m :: rest)
        = [Event.triageCall m, Event.sleep 6] ++ triageTrace rest := by
      simp [triageTrace]
    constructor
    · rw [h2]; exact pausesOk_append _ _ rfl ih.1 rfl
    · rw [h2]; exact endsPermissive_append _ _ rfl ih.2

/-- The embedding loop obeys the pause discipline — a 1 second sleep
follows every attempt — and ends in its final sleep. -/
theorem pausesOk_buildEvents (emb : Nat → Bool) (chunks : List Documento) :
    ∀ i, pausesOk (buildEvents emb i chunks) = true
      ∧ endsPermissive (buildEvents emb i chunks) = true := by
  induction chunks with
  | nil => intro i; exact ⟨rfl, rfl⟩
  | cons c rest ih =>
    intro i
    have h2 : buildEvents emb i (c :: rest)
        = [Event.embedChunkCall i c (emb i), Event.sleep 1] ++ buildEvents emb (i + 1) rest :=
      rfl
    constructor
    · rw [h2]; exact pausesOk_append _ _ rfl (ih (i + 1)).1 rfl
    · rw [h2]; exact endsPermissive_append _ _ rfl (ih (i + 1)).2

/-- One RAG question issues the retrieval call and, when chunks came back,
immediately the model call — never anything else. -/
theorem perguntar_trace_shape (q : String) (retriever : String → List Documento)
    (document_chain : String → List Documento → Option String) :
    (perguntar_politica_rag q retriever document_chain).2 = [Event.retrieveCall q]
      ∨ (perguntar_politica_rag q retriever document_chain).2
        = [Event.retrieveCall q, Event.chainCall q] := by
  by_cases h : retriever q = []
  · left; simp [perguntar_politica_rag, h]
  · right
    simp only [perguntar_politica_rag, if_neg h]
    split <;> rfl

/-- One RAG question followed by its 6 second sleep obeys the pause
discipline (the retrieval call being exempt) and ends in the sleep. -/
theorem pausesOk_ragQuery (q : String) (retriever : String → List Documento)
    (document_chain : String → List Documento → Option String) :
    pausesOk ((perguntar_politica_rag q retriever document_chain).2 ++ [Event.sleep 6]) = true
      ∧ endsPermissive
          ((perguntar_politica_rag q retriever document_chain).2 ++ [Event.sleep 6]) = true := by
  constructor
  · rcases perguntar_trace_shape q retriever document_chain with h | h <;> rw [h] <;> rfl
  · exact endsPermissive_concat_sleep _ 6

/-- The whole RAG phase obeys the pause discipline and ends permissively. -/
theorem pausesOk_ragTrace (pair : Option (List Documento) × Bool) (testes : List String)
    (retriever : String → List Documento)
    (document_chain : String → List Documento → Option String) :
    pausesOk (ragTrace pair testes retriever document_chain) = true
      ∧ endsPermissive (ragTrace pair testes retriever document_chain) = true := by
  rcases pair with ⟨o, b⟩
  cases o with
  | none => exact ⟨rfl, rfl⟩
  | some idx =>
    cases b with
    | false => exact ⟨rfl, rfl⟩
    | true =>
      induction testes with
      | nil => exact ⟨rfl, rfl⟩
      | cons q rest ih =>
        have h2 : ragTrace (some idx, true) (q :: rest) retriever document_chain
            = ((perguntar_politica_rag q retriever document_chain).2 ++ [Event.sleep 6])
              ++ ragTrace (some idx, true) rest retriever document_chain := by
          simp [ragTrace]
        constructor
        · rw [h2]
          exact pausesOk_append _ _ (pausesOk_ragQuery q retriever document_chain).1 ih.1
            (pausesOk_ragQuery q retriever document_chain).2
        · rw [h2]
          exact endsPermissive_append _ _ (pausesOk_ragQuery q retriever document_chain).2 ih.2

/-- The build-phase log obeys the pause discipline and ends permissively. -/
theorem pausesOk_setupEvents (docs : List Documento) (emb : Nat → Bool) :
    pausesOk (setup_rag_chain docs emb).2 = true
      ∧ endsPermissive (setup_rag_chain docs emb).2 = true := by
  rw [setup_rag_chain_snd]
  by_cases h : docs = []
  · simp only [if_pos h]; exact ⟨rfl, rfl⟩
  · simp only [if_neg h]
    exact ⟨(pausesOk_buildEvents emb _ 0).1, (pausesOk_buildEvents emb _ 0).2⟩

/-- C6 counterexample: in a run with one loaded document, one successful
chunk embedding and a retrieval that returns that chunk, the retrieval
call and the answer-model call of the RAG query are adjacent provider
calls with no intervening delay. -/
theorem claim6_counterexample :
    hasAdjacentCalls (mainTrace ["Posso reembolsar a internet?"] [docExemplo]
      (fun _ => true) (fun _ => [docExemplo]) (fun _ _ => some "Sim, pode.")) = true := by
  decide

/-- C6 amended: a 1 second pause immediately follows every chunk-embedding
attempt and a 6 second pause immediately follows every triage call and
every answer-model call, whether or not the call succeeded; but within a
single RAG query the retrieval call (which embeds the question) is
immediately followed by the answer-model call with no intervening delay,
so that pair of consecutive provider calls is exempt. -/
theorem claim6_amended_pausas (testes : List String) (docs : List Documento)
    (emb : Nat → Bool) (retriever : String → List Documento)
    (document_chain : String → List Documento → Option String) :
    pausesOk (mainTrace testes docs emb retriever document_chain) = true := by
  have t := pausesOk_triageTrace testes
  have s := pausesOk_setupEvents docs emb
  have r : pausesOk (match (setup_rag_chain docs emb).1 with
      | Except.ok pair => ragTrace pair testes retriever document_chain
      | Except.error _ => []) = true := by
    cases hsr : (setup_rag_chain docs emb).1 with
    | ok pair => exact (pausesOk_ragTrace pair testes retriever document_chain).1
    | error e => rfl
  unfold mainTrace
  exact pausesOk_append _ _ (pausesOk_append _ _ t.1 s.1 t.2) r
    (endsPermissive_append _ _ t.2 s.2)

end Rag
